import Mathlib

/-!
Verification of `FelixActivityBot.py` (ActivityTracker data layer and handlers).

Shallow embedding conventions:
* SQLite tables become Lean lists of structures; each SQL statement is
  translated to the corresponding list operation.
* `datetime` instants become integer seconds (`Time := Int`); a stored
  `date` column (the `YYYY-MM-DD` string derived from an instant) becomes
  the day index `t.fdiv 86400`, and string comparison of ISO dates becomes
  integer comparison of day indices.
* Python `None` becomes `Option.none`; the happy path of each `try/except`
  block is modelled (storage faults are out of scope of the claims).
-/

namespace FelixActivityBot

/-- An absolute instant, in seconds (models a Python `datetime`). -/
abbrev Time := Int

/-- Seconds per hour, used by `timedelta(hours=...)`. -/
def secPerHour : Int := 3600

/-- Seconds per day, used by `timedelta(days=...)`. -/
def secPerDay : Int := 86400

/-- The calendar-day index of an instant (models `strftime('%Y-%m-%d')`;
lexicographic order on those strings is integer order on day indices). -/
def dateOf (t : Time) : Int := t.fdiv secPerDay

/-- The hour-of-day of an instant (models `datetime.hour`). -/
def hourOf (t : Time) : Int := (t.fdiv secPerHour) % 24

/-- One row of the `groups` table. -/
structure Group where
  chat_id : Int
  group_name : Option String
  status : String
  trial_end_date : Option Time
  subscription_end_date : Option Time
  added_date : Time
deriving Repr, DecidableEq

/-- One row of the `activity` table. -/
structure ActivityEvent where
  chat_id : Int
  user_id : Int
  username : Option String
  first_name : Option String
  timestamp : Time
  message_type : String
  date : Int
  hour : Int
deriving Repr, DecidableEq

/-- The SQLite database state (the `group_admins` table is not needed by
any claim and is omitted). -/
structure DB where
  groups : List Group
  activity : List ActivityEvent
deriving Repr, DecidableEq

/-- Model of `SELECT ... FROM groups WHERE chat_id = ?` returning at most one row
(`chat_id` is the primary key). -/
def find_group (db : DB) (chat_id : Int) : Option Group :=
  db.groups.find? (fun g => g.chat_id == chat_id)

/-- Model of `ActivityTracker.register_group`: insert a `pending` row iff no row
with this `chat_id` exists; returns `True` exactly when a new row was
inserted. -/
def register_group (db : DB) (chat_id : Int) (group_name : Option String)
    (now : Time) : Bool × DB :=
  if db.groups.any (fun g => g.chat_id == chat_id) then
    (false, db)
  else
    (true, { db with groups :=
      db.groups ++ [⟨chat_id, group_name, "pending", none, none, now⟩] })

/-- Model of `ActivityTracker.update_group_status`:
`UPDATE groups SET status = ? WHERE chat_id = ?`; returns `True`. -/
def update_group_status (db : DB) (chat_id : Int) (status : String) :
    Bool × DB :=
  (true, { db with groups := db.groups.map (fun g =>
    if g.chat_id == chat_id then { g with status := status } else g) })

/-- Model of `ActivityTracker.approve_group_trial`:
`UPDATE groups SET status = 'trial', trial_end_date = now + hours WHERE chat_id = ?`;
returns `True`. -/
def approve_group_trial (db : DB) (chat_id : Int) (hours : Int)
    (now : Time) : Bool × DB :=
  (true, { db with groups := db.groups.map (fun g =>
    if g.chat_id == chat_id then
      { g with status := "trial", trial_end_date := some (now + secPerHour * hours) }
    else g) })

/-- Model of `ActivityTracker.extend_subscription`:
`UPDATE groups SET status = 'active', subscription_end_date = now + days WHERE chat_id = ?`;
returns `True`. -/
def extend_subscription (db : DB) (chat_id : Int) (days : Int)
    (now : Time) : Bool × DB :=
  (true, { db with groups := db.groups.map (fun g =>
    if g.chat_id == chat_id then
      { g with status := "active", subscription_end_date := some (now + secPerDay * days) }
    else g) })

/-- Model of `ActivityTracker.get_group_status`: read the row; on a passed `trial`
or `active` deadline persist `expired` (via `update_group_status`) and
return it; `None` when no row exists. Returns the status together with
the post-state. -/
def get_group_status (db : DB) (chat_id : Int) (now : Time) :
    Option String × DB :=
  match find_group db chat_id with
  | none => (none, db)
  | some g =>
    if g.status = "trial" then
      match g.trial_end_date with
      | some trial_end =>
        if trial_end < now then
          (some "expired", (update_group_status db chat_id "expired").2)
        else (some g.status, db)
      | none => (some g.status, db)
    else if g.status = "active" then
      match g.subscription_end_date with
      | some sub_end =>
        if sub_end < now then
          (some "expired", (update_group_status db chat_id "expired").2)
        else (some g.status, db)
      | none => (some g.status, db)
    else (some g.status, db)

/-- Model of `ActivityTracker.log_activity`: append one activity row stamped with
`now`, its day index and its hour. -/
def log_activity (db : DB) (chat_id user_id : Int)
    (username first_name : Option String) (message_type : String)
    (now : Time) : DB :=
  { db with activity := db.activity ++
    [⟨chat_id, user_id, username, first_name, now, message_type,
      dateOf now, hourOf now⟩] }

/-- The cutoff day index used by all lookback-window queries:
`(datetime.now() - timedelta(days=days)).strftime('%Y-%m-%d')`. -/
def cutoffDate (now : Time) (days : Int) : Int := dateOf (now - secPerDay * days)

/-- Model of `WHERE chat_id = ? AND date >= ?` over the `activity` table. -/
def windowEvents (db : DB) (chat_id : Int) (cutoff : Int) :
    List ActivityEvent :=
  db.activity.filter (fun e => e.chat_id == chat_id && cutoff ≤ e.date)

/-- The distinct `user_id`s of a list of events (the groups formed by
`GROUP BY user_id`), in order of first appearance. -/
def distinctUsers (events : List ActivityEvent) : List Int :=
  (events.map (fun e => e.user_id)).eraseDups

/-- Model of `COUNT(*)` for one `GROUP BY user_id` group. -/
def userCount (events : List ActivityEvent) (u : Int) : Nat :=
  (events.filter (fun e => e.user_id == u)).length

/-- Model of `COALESCE(username, first_name, 'Unknown')` for one `GROUP BY user_id`
group (SQLite takes the non-aggregated columns from one row of the group;
modelled as the group's first row). -/
def displayName (events : List ActivityEvent) (u : Int) : String :=
  match (events.filter (fun e => e.user_id == u)).head? with
  | some e =>
    match e.username with
    | some s => s
    | none =>
      match e.first_name with
      | some s => s
      | none => "Unknown"
  | none => "Unknown"

/-- Insert `x` into a list sorted descending by `key`, before the first
element of strictly smaller key (models the order produced by
`ORDER BY ... DESC`). -/
def insertByKeyDesc {α : Type} (key : α → Nat) (x : α) :
    List α → List α
  | [] => [x]
  | y :: ys =>
    if key y < key x then x :: y :: ys else y :: insertByKeyDesc key x ys

/-- Sort a list descending by `key` (models `ORDER BY ... DESC`; ties keep
an arbitrary but definite order, as SQLite leaves them unspecified). -/
def sortByKeyDesc {α : Type} (key : α → Nat) : List α → List α
  | [] => []
  | x :: xs => insertByKeyDesc key x (sortByKeyDesc key xs)

/-- The unsorted rows of the `get_top_contributors` query:
one `(user_id, display_name, COUNT(*))` triple per `GROUP BY` group. -/
def contributorEntries (events : List ActivityEvent) :
    List (Int × String × Nat) :=
  (distinctUsers events).map (fun u =>
    (u, displayName events u, userCount events u))

/-- Model of `ActivityTracker.get_top_contributors`: group the window's events by
user, count, `ORDER BY message_count DESC`, `LIMIT limit`. -/
def get_top_contributors (db : DB) (chat_id : Int) (days : Int)
    (limit : Nat) (now : Time) : List (Int × String × Nat) :=
  let events := windowEvents db chat_id (cutoffDate now days)
  (sortByKeyDesc (fun p => p.2.2) (contributorEntries events)).take limit

/-- Model of `ActivityTracker.get_peak_hours`: group the window's events by hour,
count, `ORDER BY count DESC`, `LIMIT 5`. -/
def get_peak_hours (db : DB) (chat_id : Int) (days : Int) (now : Time) :
    List (Int × Nat) :=
  let events := windowEvents db chat_id (cutoffDate now days)
  let hours := (events.map (fun e => e.hour)).eraseDups
  (sortByKeyDesc (fun p => p.2)
    (hours.map (fun h =>
      (h, (events.filter (fun e => e.hour == h)).length)))).take 5

/-- The result record of `ActivityTracker.get_overall_stats`. -/
structure OverallStats where
  total_messages : Nat
  unique_users : Nat
  messages_today : Nat
  active_today : Nat
  messages_week : Nat
  avg_per_user : ℚ
deriving Repr, DecidableEq

/-- Python's `round` at integer precision: round half to even. -/
def bankerRound (q : ℚ) : ℤ :=
  let f := ⌊q⌋
  if q - f < 1 / 2 then f
  else if 1 / 2 < q - f then f + 1
  else if f % 2 = 0 then f else f + 1

/-- Python's `round(x, 1)` on an exact rational (float representation
error is abstracted away). -/
def pyRound1 (q : ℚ) : ℚ := (bankerRound (10 * q) : ℚ) / 10

/-- Model of `ActivityTracker.get_overall_stats`: the five counts and the
zero-guarded `round(total_messages / unique_users, 1)`. -/
def get_overall_stats (db : DB) (chat_id : Int) (now : Time) :
    OverallStats :=
  let chatEvents := db.activity.filter (fun e => e.chat_id == chat_id)
  let total_messages := chatEvents.length
  let unique_users := ((chatEvents.map (fun e => e.user_id)).eraseDups).length
  let today := dateOf now
  let todayEvents := chatEvents.filter (fun e => e.date == today)
  let week_ago := dateOf (now - secPerDay * 7)
  { total_messages := total_messages
    unique_users := unique_users
    messages_today := todayEvents.length
    active_today := ((todayEvents.map (fun e => e.user_id)).eraseDups).length
    messages_week := (chatEvents.filter (fun e => week_ago ≤ e.date)).length
    avg_per_user :=
      if 0 < unique_users then
        pyRound1 ((total_messages : ℚ) / (unique_users : ℚ))
      else 0 }

/-- The fixed header row written by `ActivityTracker.export_to_csv`. -/
def exportHeader : List String :=
  ["User ID", "Username", "First Name", "Total Messages",
   "First Activity", "Last Activity"]

/-- One data row of the CSV export for one `GROUP BY user_id` group:
`user_id`, `COALESCE(username, 'N/A')`, `COALESCE(first_name, 'Unknown')`,
`COUNT(*)`, `MIN(date)`, `MAX(date)`. -/
def exportRow (events : List ActivityEvent) (u : Int) : List String :=
  let es := events.filter (fun e => e.user_id == u)
  let username :=
    match es.head? with
    | some e => e.username.getD "N/A"
    | none => "N/A"
  let fname :=
    match es.head? with
    | some e => e.first_name.getD "Unknown"
    | none => "Unknown"
  let dates := es.map (fun e => e.date)
  let firstActivity :=
    match dates with
    | [] => ""
    | d :: ds => toString (ds.foldl min d)
  let lastActivity :=
    match dates with
    | [] => ""
    | d :: ds => toString (ds.foldl max d)
  [toString u, username, fname, toString es.length, firstActivity,
   lastActivity]

/-- The rows of `ActivityTracker.export_to_csv`: the fixed header, then
one row per user of the window, `ORDER BY total_messages DESC`. -/
def export_rows (db : DB) (chat_id : Int) (days : Int) (now : Time) :
    List (List String) :=
  let events := windowEvents db chat_id (cutoffDate now days)
  exportHeader ::
    ((sortByKeyDesc (fun p : Int × Nat => p.2)
        ((distinctUsers events).map (fun u => (u, userCount events u)))).map
      (fun p => exportRow events p.1))

/-- Field quoting of `csv.writer` (QUOTE_MINIMAL): quote a field containing
the delimiter, the quote character, or a line-terminator character,
doubling embedded quotes. -/
def csvField (s : String) : String :=
  if s.data.any (fun c => c == ',' || c == '\"' || c == '\n' || c == '\r') then
    String.mk ('\"' ::
      (s.data.flatMap (fun c => if c == '\"' then ['\"', '\"'] else [c]))
      ++ ['\"'])
  else s

/-- One `csv.writer` row: comma-joined quoted fields plus the default
`\r\n` terminator. -/
def csvRowText (fields : List String) : String :=
  String.intercalate "," (fields.map csvField) ++ "\r\n"

/-- Model of `ActivityTracker.export_to_csv`: the CSV text of `export_rows`. -/
def export_to_csv (db : DB) (chat_id : Int) (days : Int) (now : Time) :
    String :=
  String.join ((export_rows db chat_id days now).map csvRowText)

/-- The fields of an inbound Telegram message event that `track_message`
reads. -/
structure IncomingMessage where
  chat_id : Int
  chat_title : Option String
  chat_type : String
  user_id : Int
  username : Option String
  first_name : Option String
  has_text : Bool
  has_photo : Bool
  has_video : Bool
  has_sticker : Bool
  has_document : Bool
  has_voice : Bool
deriving Repr, DecidableEq

/-- The message-type classification chain of `track_message`. -/
def message_type_of (m : IncomingMessage) : String :=
  if m.has_text then "text"
  else if m.has_photo then "photo"
  else if m.has_video then "video"
  else if m.has_sticker then "sticker"
  else if m.has_document then "document"
  else if m.has_voice then "voice"
  else "other"

/-- The recording gate of `track_message`:
`status in ['trial', 'active']` on the evaluated `Optional[str]` status. -/
def statusAllowsTracking (status : Option String) : Bool :=
  status == some "trial" || status == some "active"

/-- The `track_message` handler: ignore non-group chats, register the
group if unseen, evaluate its status, and log the activity only when the
status is `trial` or `active`. -/
def track_message (db : DB) (m : IncomingMessage) (now : Time) : DB :=
  if m.chat_type == "group" || m.chat_type == "supergroup" then
    let db1 := (register_group db m.chat_id m.chat_title now).2
    let res := get_group_status db1 m.chat_id now
    if statusAllowsTracking res.1 then
      log_activity res.2 m.chat_id m.user_id m.username m.first_name
        (message_type_of m) now
    else res.2
  else db

/-- One record of the external backup worksheet
(`get_all_records()` row with the `groups` columns). -/
structure SheetRecord where
  chat_id : Int
  group_name : Option String
  status : String
  trial_end_date : Option Time
  subscription_end_date : Option Time
  added_date : Time
deriving Repr, DecidableEq

/-- Model of `INSERT OR REPLACE INTO groups` keyed on the primary key `chat_id`. -/
def upsert_group (groups : List Group) (r : SheetRecord) : List Group :=
  if groups.any (fun g => g.chat_id == r.chat_id) then
    groups.map (fun g =>
      if g.chat_id == r.chat_id then
        ⟨r.chat_id, r.group_name, r.status, r.trial_end_date,
         r.subscription_end_date, r.added_date⟩
      else g)
  else
    groups ++ [⟨r.chat_id, r.group_name, r.status, r.trial_end_date,
               r.subscription_end_date, r.added_date⟩]

/-- Model of `ActivityTracker.restore_from_sheets`: fail without touching the
database when no sheet is configured or the sheet has no records;
otherwise upsert every record into `groups`. -/
def restore_from_sheets (db : DB)
    (backup_sheet : Option (List SheetRecord)) : (Bool × String) × DB :=
  match backup_sheet with
  | none => ((false, "Backup sheet not configured"), db)
  | some records =>
    if records.isEmpty then
      ((false, "No backup data found"), db)
    else
      ((true, "Restored " ++ toString records.length ++
        " groups from backup"),
       { db with groups := records.foldl upsert_group db.groups })

/-- Python `str.isdigit` on the ASCII model: nonempty and all digits. -/
def isDigitStr (s : String) : Bool :=
  !s.data.isEmpty && s.data.all (fun c => c.isDigit)

/-- Model of `int(...)` on a digit string. -/
def parseDigits (s : String) : Nat :=
  s.data.foldl (fun n c => 10 * n + (c.toNat - 48)) 0

/-- The lookback window computed by `leaderboard_command`: default 7;
a numeric first argument is used, clamped with `min(days, 30)`. -/
def leaderboard_days (args : List String) : Nat :=
  match args with
  | [] => 7
  | a :: _ => if isDigitStr a then min (parseDigits a) 30 else 7

/-- The lookback window used by `peak_times_command`: the constant 7. -/
def peak_times_days : Nat := 7

/-- The lookback window computed by `export_data_command`: default 30;
a numeric first argument is used, clamped with `min(days, 90)`. -/
def export_data_days (args : List String) : Nat :=
  match args with
  | [] => 30
  | a :: _ => if isDigitStr a then min (parseDigits a) 90 else 30

/-! ### Helper lemmas -/

/-- A conditional rewrite that touches no element is the identity map. -/
theorem map_if_eq_self {α : Type} (p : α → Bool) (f : α → α) (l : List α)
    (h : ∀ x ∈ l, p x = false) :
    l.map (fun x => if p x then f x else x) = l := by
  induction l with
  | nil => rfl
  | cons hd tl ih =>
    have h1 : p hd = false := h hd (List.mem_cons_self hd tl)
    have h2 : ∀ x ∈ tl, p x = false := fun x hx =>
      h x (List.mem_cons_of_mem hd hx)
    simp [h1, ih h2]

/-- A status `UPDATE ... WHERE chat_id = ?` commutes with looking up that
`chat_id`. -/
theorem find?_map_statusUpdate (l : List Group) (c : Int) (s : String) :
    (l.map (fun g =>
      if g.chat_id == c then { g with status := s } else g)).find?
        (fun g => g.chat_id == c)
      = (l.find? (fun g => g.chat_id == c)).map
          (fun g => { g with status := s }) := by
  induction l with
  | nil => rfl
  | cons hd tl ih =>
    by_cases hb : hd.chat_id == c
    · have hf : (if hd.chat_id == c then { hd with status := s } else hd)
          = { hd with status := s } := if_pos hb
      have hb' : (fun g : Group => g.chat_id == c) { hd with status := s }
          = true := hb
      rw [List.map_cons, hf,
        List.find?_cons_of_pos (p := fun g : Group => g.chat_id == c) _ hb',
        List.find?_cons_of_pos (p := fun g : Group => g.chat_id == c) _ hb]
      rfl
    · have hf : (if hd.chat_id == c then { hd with status := s } else hd)
          = hd := if_neg hb
      rw [List.map_cons, hf,
        List.find?_cons_of_neg (p := fun g : Group => g.chat_id == c) _ hb,
        List.find?_cons_of_neg (p := fun g : Group => g.chat_id == c) _ hb,
        ih]

/-- The operation `register_group` does not touch the `activity` table. -/
theorem register_group_activity (db : DB) (c : Int) (n : Option String)
    (t : Time) : ((register_group db c n t).2).activity = db.activity := by
  unfold register_group
  split <;> rfl

/-- The operation `get_group_status` does not touch the `activity` table. -/
theorem get_group_status_activity (db : DB) (c : Int) (t : Time) :
    ((get_group_status db c t).2).activity = db.activity := by
  unfold get_group_status update_group_status
  cases find_group db c with
  | none => rfl
  | some g =>
    dsimp only
    split
    · cases g.trial_end_date with
      | none => rfl
      | some te => dsimp only; split <;> rfl
    · split
      · cases g.subscription_end_date with
        | none => rfl
        | some se => dsimp only; split <;> rfl
      · rfl

/-- Everything in an insertion is the inserted element or was in the
list. -/
theorem mem_insertByKeyDesc {α : Type} (key : α → Nat) (x : α)
    (l : List α) (a : α) (h : a ∈ insertByKeyDesc key x l) :
    a = x ∨ a ∈ l := by
  induction l with
  | nil => simpa [insertByKeyDesc] using h
  | cons y ys ih =>
    by_cases hk : key y < key x
    · simp only [insertByKeyDesc, if_pos hk] at h
      exact List.mem_cons.mp h
    · simp only [insertByKeyDesc, if_neg hk, List.mem_cons] at h
      rcases h with h | h
      · right; simp [h]
      · rcases ih h with h' | h'
        · left; exact h'
        · right; simp [h']

/-- Inserting into a list sorted descending by `key` keeps it sorted. -/
theorem pairwise_insertByKeyDesc {α : Type} (key : α → Nat) (x : α)
    (l : List α) (h : l.Pairwise (fun a b => key b ≤ key a)) :
    (insertByKeyDesc key x l).Pairwise (fun a b => key b ≤ key a) := by
  induction l with
  | nil => simp [insertByKeyDesc]
  | cons y ys ih =>
    rcases List.pairwise_cons.mp h with ⟨hy, hys⟩
    by_cases hk : key y < key x
    · rw [insertByKeyDesc, if_pos hk]
      refine List.pairwise_cons.mpr ⟨?_, h⟩
      intro b hb
      rcases List.mem_cons.mp hb with rfl | hb'
      · exact Nat.le_of_lt hk
      · exact Nat.le_trans (hy b hb') (Nat.le_of_lt hk)
    · rw [insertByKeyDesc, if_neg hk]
      refine List.pairwise_cons.mpr ⟨?_, ih hys⟩
      intro b hb
      rcases mem_insertByKeyDesc key x ys b hb with rfl | hb'
      · exact Nat.le_of_not_lt hk
      · exact hy b hb'

/-- The sort only returns elements of its input. -/
theorem mem_sortByKeyDesc {α : Type} (key : α → Nat) (l : List α)
    (a : α) (h : a ∈ sortByKeyDesc key l) : a ∈ l := by
  induction l with
  | nil => simp [sortByKeyDesc] at h
  | cons x xs ih =>
    rw [sortByKeyDesc] at h
    rcases mem_insertByKeyDesc _ _ _ _ h with rfl | h'
    · exact List.mem_cons_self _ _
    · exact List.mem_cons_of_mem _ (ih h')

/-- The sort's output is sorted descending by `key`. -/
theorem pairwise_sortByKeyDesc {α : Type} (key : α → Nat) (l : List α) :
    (sortByKeyDesc key l).Pairwise (fun a b => key b ≤ key a) := by
  induction l with
  | nil => simp [sortByKeyDesc]
  | cons x xs ih => exact pairwise_insertByKeyDesc key x _ ih

/-- Each unsorted leaderboard row carries exactly the `COUNT(*)` of its
own user. -/
theorem contributorEntries_count (events : List ActivityEvent)
    (p : Int × String × Nat) (h : p ∈ contributorEntries events) :
    p.2.2 = userCount events p.1 := by
  rcases List.mem_map.mp h with ⟨u, _, rfl⟩
  rfl

/-! ### Claims -/

/-- Claim C1: for every chat_id and display_name (starting from a store
with no row for that chat_id), calling `register_group` twice yields
`created = true` on the first call and `created = false` on the second,
and afterwards exactly one Group row for that chat_id exists, with status
`pending`. -/
theorem register_twice_once_pending (db : DB) (c : Int)
    (n1 n2 : Option String) (t1 t2 : Time)
    (h : find_group db c = none) :
    (register_group db c n1 t1).1 = true ∧
    (register_group (register_group db c n1 t1).2 c n2 t2).1 = false ∧
    ((register_group (register_group db c n1 t1).2 c n2 t2).2).groups.filter
        (fun g => g.chat_id == c)
      = [⟨c, n1, "pending", none, none, t1⟩] := by
  have hall : ∀ g ∈ db.groups, ¬ ((fun g : Group => g.chat_id == c) g) :=
    List.find?_eq_none.mp h
  have hany : db.groups.any (fun g => g.chat_id == c) = false :=
    List.any_eq_false.mpr hall
  have hfil : db.groups.filter (fun g => g.chat_id == c) = [] :=
    List.filter_eq_nil_iff.mpr hall
  have h1 : register_group db c n1 t1
      = (true, { db with groups :=
          db.groups ++ [⟨c, n1, "pending", none, none, t1⟩] }) := by
    rw [register_group, if_neg (by rw [hany]; exact Bool.false_ne_true)]
  refine ⟨by rw [h1], ?_, ?_⟩
  · rw [h1, register_group]
    rw [if_pos (by simp [List.any_append])]
  · rw [h1, register_group]
    rw [if_pos (by simp [List.any_append])]
    simp [List.filter_append, hfil]

/-- Claim C1 witness: a concrete double registration from the empty
database. -/
theorem register_twice_once_pending_witness :
    find_group (DB.mk [] []) 1 = none ∧
    (register_group (DB.mk [] []) 1 (some "G") 0).1 = true ∧
    (register_group
      (register_group (DB.mk [] []) 1 (some "G") 0).2 1 (some "H") 5).1
        = false ∧
    ((register_group
      (register_group (DB.mk [] []) 1 (some "G") 0).2 1
        (some "H") 5).2).groups.filter (fun g => g.chat_id == 1)
      = [⟨1, some "G", "pending", none, none, 0⟩] :=
  ⟨by decide,
   register_twice_once_pending (DB.mk [] []) 1 (some "G") (some "H") 0 5
     (by decide)⟩

/-- Claim C2: for a registered group whose stored status is `trial`
(resp. `active`) with a deadline strictly in the past at read time,
`get_group_status` returns `expired` and persists `expired` to the store
(its post-state is exactly the `update_group_status` post-state, and the
group's row now carries status `expired`). -/
theorem evaluate_expires (db : DB) (c : Int) (now : Time) (g : Group)
    (dl : Time) (hg : find_group db c = some g)
    (hcase : (g.status = "trial" ∧ g.trial_end_date = some dl ∧ dl < now)
      ∨ (g.status = "active" ∧ g.subscription_end_date = some dl ∧
          dl < now)) :
    get_group_status db c now
      = (some "expired", (update_group_status db c "expired").2) ∧
    find_group (get_group_status db c now).2 c
      = some { g with status := "expired" } := by
  have hmain : get_group_status db c now
      = (some "expired", (update_group_status db c "expired").2) := by
    rcases hcase with ⟨hs, hte, hlt⟩ | ⟨hs, hse, hlt⟩
    · rw [get_group_status, hg]
      simp only [hs, hte]
      rw [if_pos trivial, if_pos hlt]
    · rw [get_group_status, hg]
      simp only [hs, hse]
      rw [if_pos trivial, if_pos hlt, if_neg (by decide)]
  refine ⟨hmain, ?_⟩
  rw [hmain]
  show find_group (update_group_status db c "expired").2 c = _
  unfold find_group update_group_status
  rw [find?_map_statusUpdate]
  rw [show db.groups.find? (fun g => g.chat_id == c) = some g from hg]
  rfl

/-- Claim C2 witness: register, approve a zero-hour trial at time 0, and
evaluate at time 1: the status comes back `expired` and the stored row is
`expired`. -/
theorem evaluate_expires_witness :
    find_group
        ((approve_group_trial
          ((register_group (DB.mk [] []) 1 (some "G") 0).2) 1 0 0).2) 1
      = some ⟨1, some "G", "trial", some 0, none, 0⟩ ∧
    get_group_status
        ((approve_group_trial
          ((register_group (DB.mk [] []) 1 (some "G") 0).2) 1 0 0).2) 1 1
      = (some "expired",
         (update_group_status
           ((approve_group_trial
             ((register_group (DB.mk [] []) 1 (some "G") 0).2) 1 0 0).2) 1
           "expired").2) :=
  ⟨by decide,
   (evaluate_expires
     ((approve_group_trial
       ((register_group (DB.mk [] []) 1 (some "G") 0).2) 1 0 0).2) 1 1
     ⟨1, some "G", "trial", some 0, none, 0⟩ 0 (by decide)
     (Or.inl ⟨rfl, rfl, by decide⟩)).1⟩

/-- Claim C3: `get_top_contributors` returns at most `limit` entries,
ordered by message count descending, and every returned count equals the
total number of recorded events for that user in that chat within the
window. -/
theorem top_contributors_spec (db : DB) (c : Int) (days : Int)
    (limit : Nat) (now : Time) :
    (get_top_contributors db c days limit now).length ≤ limit ∧
    (get_top_contributors db c days limit now).Pairwise
      (fun a b => b.2.2 ≤ a.2.2) ∧
    ∀ p ∈ get_top_contributors db c days limit now,
      p.2.2 = userCount (windowEvents db c (cutoffDate now days)) p.1 := by
  refine ⟨List.length_take_le _ _, ?_, ?_⟩
  · exact List.Pairwise.sublist (List.take_sublist _ _)
      (pairwise_sortByKeyDesc (fun p => p.2.2)
        (contributorEntries (windowEvents db c (cutoffDate now days))))
  · intro p hp
    have h1 : p ∈ sortByKeyDesc (fun q : Int × String × Nat => q.2.2)
        (contributorEntries (windowEvents db c (cutoffDate now days))) :=
      List.mem_of_mem_take hp
    exact contributorEntries_count _ p (mem_sortByKeyDesc _ _ _ h1)

/-- Claim C4: `get_overall_stats` on a chat with zero recorded events
returns all-zero counts and `avg_per_user = 0`; the guarded division is
never taken. -/
theorem overall_stats_zero (db : DB) (c : Int) (now : Time)
    (h : db.activity.filter (fun e => e.chat_id == c) = []) :
    get_overall_stats db c now = ⟨0, 0, 0, 0, 0, 0⟩ := by
  simp [get_overall_stats, h, List.eraseDups]
  refine ⟨rfl, fun h' => ?_⟩
  norm_num [pyRound1, bankerRound]

/-- Claim C4 witness: the empty database at a concrete chat. -/
theorem overall_stats_zero_witness :
    (DB.mk [] []).activity.filter (fun e => e.chat_id == 1) = [] ∧
    get_overall_stats (DB.mk [] []) 1 0 = ⟨0, 0, 0, 0, 0, 0⟩ :=
  ⟨rfl, overall_stats_zero (DB.mk [] []) 1 0 rfl⟩

/-- Claim C5: the first row of the CSV export is exactly the fixed
documented header, and with zero matching events the export is the
header-only text, not an error. -/
theorem export_csv_header (db : DB) (c : Int) (days : Int) (now : Time) :
    (export_rows db c days now).head? = some exportHeader ∧
    (windowEvents db c (cutoffDate now days) = [] →
      export_to_csv db c days now =
        "User ID,Username,First Name,Total Messages,First Activity,Last Activity\r\n") := by
  constructor
  · rfl
  · intro h
    have hrows : export_rows db c days now = [exportHeader] := by
      unfold export_rows
      rw [h]
      rfl
    unfold export_to_csv
    rw [hrows]
    decide

/-- Claim C5 witness: the empty database exports header-only text. -/
theorem export_csv_header_witness :
    windowEvents (DB.mk [] []) 1 (cutoffDate 0 30) = [] ∧
    export_to_csv (DB.mk [] []) 1 30 0 =
      "User ID,Username,First Name,Total Messages,First Activity,Last Activity\r\n" :=
  ⟨rfl, (export_csv_header (DB.mk [] []) 1 30 0).2 rfl⟩

/-- Claim C6: `track_message` creates no activity row when the group's
evaluated status is not `trial` or `active` (pending, expired — including
a trial whose deadline has passed — or missing). -/
theorem no_event_when_blocked (db : DB) (m : IncomingMessage) (now : Time)
    (h : statusAllowsTracking
      ((get_group_status
        (register_group db m.chat_id m.chat_title now).2 m.chat_id
          now).1) = false) :
    (track_message db m now).activity = db.activity := by
  unfold track_message
  by_cases hchat :
      (m.chat_type == "group" || m.chat_type == "supergroup") = true
  · rw [if_pos hchat]
    dsimp only
    rw [if_neg (by simp [h])]
    rw [get_group_status_activity, register_group_activity]
  · rw [if_neg hchat]

/-- Claim C6 witness: a message to a group whose trial deadline has
passed is evaluated to `expired` and nothing is recorded. -/
theorem no_event_when_blocked_witness :
    statusAllowsTracking
      ((get_group_status
        (register_group
          (DB.mk [Group.mk (-100) (some "G") "trial" (some 0) none 0] [])
          (-100) (some "G") 5).2 (-100) 5).1) = false ∧
    (track_message
      (DB.mk [Group.mk (-100) (some "G") "trial" (some 0) none 0] [])
      (IncomingMessage.mk (-100) (some "G") "group" 7 (some "u")
        (some "U") true false false false false false) 5).activity
      = [] := by
  refine ⟨by decide, ?_⟩
  exact no_event_when_blocked
    (DB.mk [Group.mk (-100) (some "G") "trial" (some 0) none 0] [])
    (IncomingMessage.mk (-100) (some "G") "group" 7 (some "u") (some "U")
      true false false false false false) 5 (by decide)

/-- Claim C7: restoring from a configured but empty external store
reports the "no backup data" failure (no exception) and leaves the local
Group table completely unchanged. -/
theorem restore_empty_no_change (db : DB) :
    restore_from_sheets db (some [])
      = ((false, "No backup data found"), db) := rfl

/-- Claim C8: the leaderboard and peak-hours windows are clamped to at
most 30 days and the export window to at most 90 days, for every
requested argument list. -/
theorem window_days_bounded (args eargs : List String) :
    leaderboard_days args ≤ 30 ∧ peak_times_days ≤ 30 ∧
    export_data_days eargs ≤ 90 := by
  refine ⟨?_, by decide, ?_⟩
  · unfold leaderboard_days
    cases args with
    | nil => decide
    | cons a rest =>
      dsimp only
      split
      · exact Nat.min_le_right _ _
      · decide
  · unfold export_data_days
    cases eargs with
    | nil => decide
    | cons a rest =>
      dsimp only
      split
      · exact Nat.min_le_right _ _
      · decide

/-- Claim C9: `approve_group_trial`, `extend_subscription` and the
revoke path (`update_group_status` to `expired`) on a chat_id with no
Group row all report success while changing nothing: the UPDATE matches
zero rows. -/
theorem lifecycle_noop_when_absent (db : DB) (c : Int) (h d : Int)
    (now : Time) (hno : find_group db c = none) :
    approve_group_trial db c h now = (true, db) ∧
    extend_subscription db c d now = (true, db) ∧
    update_group_status db c "expired" = (true, db) := by
  have hall : ∀ g ∈ db.groups,
      ((fun g : Group => g.chat_id == c) g) = false := by
    intro g hg
    exact Bool.eq_false_iff.mpr (List.find?_eq_none.mp hno g hg)
  have hmap : ∀ f : Group → Group,
      db.groups.map (fun g => if g.chat_id == c then f g else g)
        = db.groups :=
    fun f => map_if_eq_self (fun g => g.chat_id == c) f db.groups hall
  refine ⟨?_, ?_, ?_⟩
  · rw [approve_group_trial, hmap]
  · rw [extend_subscription, hmap]
  · rw [update_group_status, hmap]

/-- Claim C9 witness: the three lifecycle updates on the empty database
at a concrete chat_id. -/
theorem lifecycle_noop_when_absent_witness :
    find_group (DB.mk [] []) 1 = none ∧
    approve_group_trial (DB.mk [] []) 1 48 0 = (true, DB.mk [] []) ∧
    extend_subscription (DB.mk [] []) 1 30 0 = (true, DB.mk [] []) ∧
    update_group_status (DB.mk [] []) 1 "expired"
      = (true, DB.mk [] []) :=
  ⟨by decide,
   lifecycle_noop_when_absent (DB.mk [] []) 1 48 30 0 (by decide)⟩

/-- Claim C10: for a chat_id with no Group row, `get_group_status`
returns `none` with no side effect, and `none` fails the recording gate
exactly as `pending` and `expired` do. -/
theorem status_none_when_unregistered (db : DB) (c : Int) (now : Time)
    (hno : find_group db c = none) :
    get_group_status db c now = (none, db) ∧
    statusAllowsTracking (get_group_status db c now).1 = false ∧
    statusAllowsTracking (some "pending") = false ∧
    statusAllowsTracking (some "expired") = false := by
  have h1 : get_group_status db c now = (none, db) := by
    rw [get_group_status, hno]
  refine ⟨h1, ?_, by decide, by decide⟩
  rw [h1]
  rfl

/-- Claim C10 witness: the empty database at a concrete chat_id. -/
theorem status_none_when_unregistered_witness :
    find_group (DB.mk [] []) 1 = none ∧
    get_group_status (DB.mk [] []) 1 0 = (none, DB.mk [] []) :=
  ⟨by decide,
   (status_none_when_unregistered (DB.mk [] []) 1 0 (by decide)).1⟩

end FelixActivityBot
